import Mathlib

/-!
Verification of the Mergington High School activity-roster service
(`src/app.py`): the in-memory activity registry, the signup and
unregister endpoint handlers, and the SMTP notification helper are
embedded as pure Lean functions. Endpoint handlers return a result
value, the updated registry, and the list of notification tasks they
scheduled, making the state change and the dispatched emails explicit.
-/

/-- One activity record, mirroring the dict values in the `activities`
module-level database. `location` is optional because no seed record
carries it; the email-body builders read it with a default. -/
structure Activity where
  description : String
  schedule : String
  max_participants : Nat
  participants : List String
  location : Option String := none
deriving Repr, DecidableEq

/-- The registry: an insertion-ordered mapping from activity name to
record, mirroring the Python dict. -/
abbrev Registry := List (String × Activity)

/-- Dict lookup: first entry whose key equals the name. -/
def lookupActivity : Registry → String → Option Activity
  | [], _ => none
  | (k, v) :: rest, n => if k = n then some v else lookupActivity rest n

/-- In-place mutation of one activity's record (Python mutates the dict
value through the shared reference): every entry keyed by the name gets
the new record, all other entries and the order are untouched. -/
def updateActivity : Registry → String → Activity → Registry
  | [], _, _ => []
  | (k, v) :: rest, n, a =>
    if k = n then (k, a) :: updateActivity rest n a
    else (k, v) :: updateActivity rest n a

/-- Outcome of an endpoint call: the returned JSON message, or the
`HTTPException(status_code, detail)` the handler raises. -/
inductive ApiResult where
  | ok (message : String)
  | httpError (status : Nat) (detail : String)
deriving Repr, DecidableEq

/-- Whether a result is the success case. -/
def ApiResult.isOk : ApiResult → Bool
  | .ok _ => true
  | .httpError _ _ => false

/-- One notification task handed to `background_tasks.add_task(send_email, ...)`. -/
structure Notification where
  subject : String
  body : String
  to_email : String
deriving Repr, DecidableEq

/-- What one endpoint call produces: result, post-call registry, and the
background notification tasks it scheduled. -/
structure ApiResponse where
  result : ApiResult
  registry : Registry
  emails : List Notification
deriving Repr, DecidableEq

/-- Body template `_registration_email_body` from `app.py`. -/
def registration_email_body (activity_name : String) (activity : Activity)
    (student_email : String) : String :=
  "Registration Confirmation\n" ++
  "---------------------------\n" ++
  "Student: " ++ student_email ++ "\n" ++
  "Activity: " ++ activity_name ++ "\n" ++
  "Schedule: " ++ activity.schedule ++ "\n" ++
  "Location: " ++ activity.location.getD "On campus" ++ "\n\n" ++
  "You are successfully registered. If you need to cancel, use the unregister option on the site."

/-- Body template `_cancellation_email_body` from `app.py`. -/
def cancellation_email_body (activity_name : String) (activity : Activity)
    (student_email : String) : String :=
  "Cancellation Confirmation\n" ++
  "---------------------------\n" ++
  "Student: " ++ student_email ++ "\n" ++
  "Activity: " ++ activity_name ++ "\n" ++
  "Schedule: " ++ activity.schedule ++ "\n\n" ++
  "Your registration has been cancelled. You can re-register anytime if spots are available."

/-- `POST /activities/{activity_name}/signup` handler
(`signup_for_activity` in `app.py`): 404 on unknown activity, 400 when
the email is already enrolled, otherwise append the email to
`participants` and schedule a confirmation email. The code performs no
capacity check before the append. -/
def signup_for_activity (acts : Registry) (activity_name email : String) : ApiResponse :=
  match lookupActivity acts activity_name with
  | none => ⟨.httpError 404 "Activity not found", acts, []⟩
  | some activity =>
    if email ∈ activity.participants then
      ⟨.httpError 400 "Student is already signed up", acts, []⟩
    else
      let updated : Activity := { activity with participants := activity.participants ++ [email] }
      ⟨.ok ("Signed up " ++ email ++ " for " ++ activity_name),
       updateActivity acts activity_name updated,
       [⟨"Successfully Registered for " ++ activity_name,
         registration_email_body activity_name updated email, email⟩]⟩

/-- `DELETE /activities/{activity_name}/unregister` handler
(`unregister_from_activity` in `app.py`): 404 on unknown activity, 400
when the email is not enrolled, otherwise remove the first occurrence
of the email (`list.remove`) and schedule a cancellation email. -/
def unregister_from_activity (acts : Registry) (activity_name email : String) : ApiResponse :=
  match lookupActivity acts activity_name with
  | none => ⟨.httpError 404 "Activity not found", acts, []⟩
  | some activity =>
    if email ∈ activity.participants then
      let updated : Activity := { activity with participants := activity.participants.erase email }
      ⟨.ok ("Unregistered " ++ email ++ " from " ++ activity_name),
       updateActivity acts activity_name updated,
       [⟨"Activity Registration Cancelled - " ++ activity_name,
         cancellation_email_body activity_name updated email, email⟩]⟩
    else
      ⟨.httpError 400 "Student is not signed up for this activity", acts, []⟩

/-- Seed record for "Chess Club". -/
def chess_club : Activity :=
  { description := "Learn strategies and compete in chess tournaments"
  , schedule := "Fridays, 3:30 PM - 5:00 PM"
  , max_participants := 12
  , participants := ["michael@mergington.edu", "daniel@mergington.edu"] }

/-- Seed record for "Programming Class". -/
def programming_class : Activity :=
  { description := "Learn programming fundamentals and build software projects"
  , schedule := "Tuesdays and Thursdays, 3:30 PM - 4:30 PM"
  , max_participants := 20
  , participants := ["emma@mergington.edu", "sophia@mergington.edu"] }

/-- Seed record for "Gym Class". -/
def gym_class : Activity :=
  { description := "Physical education and sports activities"
  , schedule := "Mondays, Wednesdays, Fridays, 2:00 PM - 3:00 PM"
  , max_participants := 30
  , participants := ["john@mergington.edu", "olivia@mergington.edu"] }

/-- Seed record for "Soccer Team". -/
def soccer_team : Activity :=
  { description := "Join the school soccer team and compete in matches"
  , schedule := "Tuesdays and Thursdays, 4:00 PM - 5:30 PM"
  , max_participants := 22
  , participants := ["liam@mergington.edu", "noah@mergington.edu"] }

/-- Seed record for "Basketball Team". -/
def basketball_team : Activity :=
  { description := "Practice and play basketball with the school team"
  , schedule := "Wednesdays and Fridays, 3:30 PM - 5:00 PM"
  , max_participants := 15
  , participants := ["ava@mergington.edu", "mia@mergington.edu"] }

/-- Seed record for "Art Club". -/
def art_club : Activity :=
  { description := "Explore your creativity through painting and drawing"
  , schedule := "Thursdays, 3:30 PM - 5:00 PM"
  , max_participants := 15
  , participants := ["amelia@mergington.edu", "harper@mergington.edu"] }

/-- Seed record for "Drama Club". -/
def drama_club : Activity :=
  { description := "Act, direct, and produce plays and performances"
  , schedule := "Mondays and Wednesdays, 4:00 PM - 5:30 PM"
  , max_participants := 20
  , participants := ["ella@mergington.edu", "scarlett@mergington.edu"] }

/-- Seed record for "Math Club". -/
def math_club : Activity :=
  { description := "Solve challenging problems and participate in math competitions"
  , schedule := "Tuesdays, 3:30 PM - 4:30 PM"
  , max_participants := 10
  , participants := ["james@mergington.edu", "benjamin@mergington.edu"] }

/-- Seed record for "Debate Team". -/
def debate_team : Activity :=
  { description := "Develop public speaking and argumentation skills"
  , schedule := "Fridays, 4:00 PM - 5:30 PM"
  , max_participants := 12
  , participants := ["charlotte@mergington.edu", "henry@mergington.edu"] }

/-- The module-level in-memory activity database `activities`. -/
def activities : Registry :=
  [ ("Chess Club", chess_club)
  , ("Programming Class", programming_class)
  , ("Gym Class", gym_class)
  , ("Soccer Team", soccer_team)
  , ("Basketball Team", basketball_team)
  , ("Art Club", art_club)
  , ("Drama Club", drama_club)
  , ("Math Club", math_club)
  , ("Debate Team", debate_team) ]

/-- A process environment: maps a variable name to its value when set
(`os.getenv`). -/
abbrev Env := String → Option String

/-- A nonempty all-digit character run read as a number, else `none`. -/
def digits? (l : List Char) : Option Nat :=
  if l ≠ [] ∧ l.all Char.isDigit then
    some (l.foldl (fun acc c => 10 * acc + (c.toNat - 48)) 0)
  else none

/-- Python `int(s)` on a string, as used by `_get_int_env`: strip
surrounding whitespace, allow one optional sign, then decimal digits;
anything else raises `ValueError`, modelled as `none`. -/
def py_int? (s : String) : Option Int :=
  let t := ((s.toList.dropWhile Char.isWhitespace).reverse.dropWhile Char.isWhitespace).reverse
  match t with
  | '-' :: rest => (digits? rest).map fun n => -(n : Int)
  | '+' :: rest => (digits? rest).map fun n => (n : Int)
  | _ => (digits? t).map fun n => (n : Int)

/-- `_get_int_env` from `app.py`: the integer default when the variable
is unset or its value fails to parse, the parsed value otherwise. -/
def get_int_env (env : Env) (name : String) (default : Int) : Int :=
  match env name with
  | none => default
  | some s => (py_int? s).getD default

/-- Python truthiness of an optional string: `None` and `""` are falsy. -/
def py_truthy_str : Option String → Bool
  | none => false
  | some s => s != ""

/-- `str.lower()` restricted to what the code needs (ASCII letters to
lower case). -/
def py_lower (s : String) : String :=
  String.mk (s.toList.map Char.toLower)

/-- The `EmailSettings` object from `app.py`, with the values its
constructor reads from the environment. -/
structure EmailSettings where
  host : Option String
  port : Int
  username : Option String
  password : Option String
  from_email : Option String
  from_name : String
  use_tls : Bool
deriving Repr, DecidableEq

/-- `EmailSettings.__init__`: read every setting from the environment,
with the defaults the code supplies. -/
def EmailSettings.ofEnv (env : Env) : EmailSettings :=
  { host := env "SMTP_HOST"
  , port := get_int_env env "SMTP_PORT" 587
  , username := env "SMTP_USERNAME"
  , password := env "SMTP_PASSWORD"
  , from_email := env "FROM_EMAIL"
  , from_name := (env "FROM_NAME").getD "Mergington High School Activities"
  , use_tls := py_lower ((env "SMTP_USE_TLS").getD "true") != "false" }

/-- The `sender` property. -/
def EmailSettings.sender (s : EmailSettings) : String :=
  if s.from_name != "" && py_truthy_str s.from_email then
    s.from_name ++ " <" ++ s.from_email.getD "" ++ ">"
  else
    s.from_email.getD ""

/-- The `is_configured` property: `bool(self.host and self.port and
self.from_email)`, i.e. the conjunction of Python truthiness of the
three values (an integer is falsy exactly when it is 0). -/
def EmailSettings.is_configured (s : EmailSettings) : Bool :=
  py_truthy_str s.host && (s.port != 0) && py_truthy_str s.from_email

/-- Observable behaviour of one `send_email` call: either the early
return that only prints the skip message, or an SMTP delivery attempt
(whose transport outcome is outside this model). -/
inductive EmailOutcome where
  | skipped (log : String)
  | attempted (sender subject body to_email : String)
deriving Repr, DecidableEq

/-- `send_email` from `app.py`: when settings are not configured, print
the skip message and return without touching SMTP; otherwise build the
message and attempt delivery. -/
def send_email (settings : EmailSettings) (subject body to_email : String) : EmailOutcome :=
  if !settings.is_configured then
    .skipped "Email settings not configured; skipping email send."
  else
    .attempted settings.sender subject body to_email

/-- A mutating request against the registry. -/
inductive Op where
  | signup (activity_name email : String)
  | unregister (activity_name email : String)
deriving Repr, DecidableEq

/-- The registry after one request commits (errors leave it unchanged). -/
def applyOp (r : Registry) : Op → Registry
  | .signup n e => (signup_for_activity r n e).registry
  | .unregister n e => (unregister_from_activity r n e).registry

/-- The registry after a sequence of requests commits. -/
def runOps (r : Registry) (ops : List Op) : Registry :=
  ops.foldl applyOp r

/-- Run a batch of signup requests one after the other, collecting each
call's result alongside the final registry. -/
def runSignups (r : Registry) : List (String × String) → Registry × List ApiResult
  | [] => (r, [])
  | (n, e) :: rest =>
    let resp := signup_for_activity r n e
    let step := runSignups resp.registry rest
    (step.1, resp.result :: step.2)

/-- `needle` occurs as a contiguous substring of `hay`. -/
def containsSub (needle hay : String) : Prop :=
  ∃ x y, hay = x ++ needle ++ y

/-- Eight distinct fresh student emails, enough to fill Math Club
(capacity 10, seeded with 2 members) exactly to capacity. -/
def fill_emails : List String :=
  [ "s1@mergington.edu", "s2@mergington.edu", "s3@mergington.edu", "s4@mergington.edu"
  , "s5@mergington.edu", "s6@mergington.edu", "s7@mergington.edu", "s8@mergington.edu" ]

/-- Signup requests that fill Math Club to its declared capacity. -/
def math_fill_ops : List Op :=
  fill_emails.map fun e => Op.signup "Math Club" e

/-- The registry after Math Club has been filled to 10/10. -/
def math_full_registry : Registry :=
  runOps activities math_fill_ops

/-- Filling Math Club to capacity and then signing up one more student:
a request sequence the code commits without complaint. -/
def c1_ops : List Op :=
  math_fill_ops ++ [Op.signup "Math Club" "overflow@mergington.edu"]

/-- Eleven distinct fresh emails: one more than Chess Club's 10 free
slots (capacity 12, seeded with 2 members). -/
def chess_emails : List String :=
  [ "c01@mergington.edu", "c02@mergington.edu", "c03@mergington.edu", "c04@mergington.edu"
  , "c05@mergington.edu", "c06@mergington.edu", "c07@mergington.edu", "c08@mergington.edu"
  , "c09@mergington.edu", "c10@mergington.edu", "c11@mergington.edu" ]

/-- Eleven signup requests against Chess Club. -/
def chess_signup_batch : List (String × String) :=
  chess_emails.map fun e => ("Chess Club", e)

/-- The response to `signup("Chess Club", "new@mergington.edu")` on the
seed registry. -/
def c7_resp : ApiResponse :=
  signup_for_activity activities "Chess Club" "new@mergington.edu"

/-- An environment where the SMTP host, a port of 0, and the sender
address are all explicitly set. -/
def c8_env : Env := fun name =>
  if name = "SMTP_HOST" then some "smtp.example.com"
  else if name = "SMTP_PORT" then some "0"
  else if name = "FROM_EMAIL" then some "activities@mergington.edu"
  else none

/-- An environment with no SMTP variables set at all. -/
def empty_env : Env := fun _ => none

/-- A one-activity registry whose roster holds the lower-case address
"a@x.edu" and not the upper-case variant. -/
def c10_activity : Activity :=
  { description := "case sensitivity probe"
  , schedule := "Fridays, 3:30 PM - 5:00 PM"
  , max_participants := 12
  , participants := ["a@x.edu"] }

/-- Registry for the case-sensitivity witness. -/
def c10_registry : Registry :=
  [("Chess Club", c10_activity)]

/-- Updating the record stored under a name that is present changes
exactly what a later lookup of that name returns. -/
theorem lookupActivity_updateActivity_self (r : Registry) (n : String) (a0 a : Activity)
    (h : lookupActivity r n = some a0) :
    lookupActivity (updateActivity r n a) n = some a := by
  induction r with
  | nil => simp [lookupActivity] at h
  | cons p rest ih =>
    obtain ⟨k, v⟩ := p
    by_cases hk : k = n
    · subst hk
      simp [lookupActivity, updateActivity]
    · simp only [lookupActivity, if_neg hk] at h
      simp only [updateActivity, if_neg hk, lookupActivity]
      exact ih h

/-- Removing a freshly appended element recovers the original list when
the element was not already present. -/
theorem erase_append_self (l : List String) (e : String) (he : e ∉ l) :
    (l ++ [e]).erase e = l := by
  rw [List.erase_append_right _ he]
  simp

/-- Claim C3: for every registry state in which the email is already on
the activity's roster — in particular every state reached after the
first successful signup of that email — another signup of the same
email returns the 400 "Student is already signed up" error, leaves the
registry unchanged, and schedules no notification; since the state is
unchanged, the same outcome repeats on every further attempt. -/
theorem C3_already_enrolled_signup (r : Registry) (n e : String) (a : Activity)
    (h : lookupActivity r n = some a) (he : e ∈ a.participants) :
    (signup_for_activity r n e).result = ApiResult.httpError 400 "Student is already signed up" ∧
    (signup_for_activity r n e).registry = r ∧
    (signup_for_activity r n e).emails = [] := by
  simp only [signup_for_activity, h, if_pos he]
  exact ⟨trivial, trivial, trivial⟩

/-- Witness for C3 on the seed registry: "michael@mergington.edu" is
already enrolled in Chess Club. -/
theorem C3_already_enrolled_signup_witness :
    (signup_for_activity activities "Chess Club" "michael@mergington.edu").result =
      ApiResult.httpError 400 "Student is already signed up" ∧
    (signup_for_activity activities "Chess Club" "michael@mergington.edu").registry = activities ∧
    (signup_for_activity activities "Chess Club" "michael@mergington.edu").emails = [] :=
  C3_already_enrolled_signup activities "Chess Club" "michael@mergington.edu" chess_club
    (by decide) (by decide)

/-- Claim C4: when the activity name is not a key of the registry, both
endpoints raise the 404 "Activity not found" error, leave the registry
exactly as it was, and schedule no notification. -/
theorem C4_unknown_activity (r : Registry) (n e : String)
    (h : lookupActivity r n = none) :
    (signup_for_activity r n e).result = ApiResult.httpError 404 "Activity not found" ∧
    (signup_for_activity r n e).registry = r ∧
    (signup_for_activity r n e).emails = [] ∧
    (unregister_from_activity r n e).result = ApiResult.httpError 404 "Activity not found" ∧
    (unregister_from_activity r n e).registry = r ∧
    (unregister_from_activity r n e).emails = [] := by
  simp only [signup_for_activity, unregister_from_activity, h]
  exact ⟨trivial, trivial, trivial, trivial, trivial, trivial⟩

/-- Witness for C4 on the seed registry with the spec's example input. -/
theorem C4_unknown_activity_witness :
    (signup_for_activity activities "Nonexistent Club" "a@b.edu").result =
      ApiResult.httpError 404 "Activity not found" ∧
    (signup_for_activity activities "Nonexistent Club" "a@b.edu").registry = activities ∧
    (signup_for_activity activities "Nonexistent Club" "a@b.edu").emails = [] ∧
    (unregister_from_activity activities "Nonexistent Club" "a@b.edu").result =
      ApiResult.httpError 404 "Activity not found" ∧
    (unregister_from_activity activities "Nonexistent Club" "a@b.edu").registry = activities ∧
    (unregister_from_activity activities "Nonexistent Club" "a@b.edu").emails = [] :=
  C4_unknown_activity activities "Nonexistent Club" "a@b.edu" (by decide)

/-- Claim C5: on an existing activity, unregister removes the email
from the roster exactly when it is present, returning the success
message; the removal branch carries no capacity condition at all, so it
succeeds whatever the roster length is relative to `max_participants`;
when the email is absent it returns the 400 "Student is not signed up
for this activity" error and the registry is unchanged. -/
theorem C5_unregister_behaviour (r : Registry) (n e : String) (a : Activity)
    (h : lookupActivity r n = some a) :
    (e ∈ a.participants →
      (unregister_from_activity r n e).result =
        ApiResult.ok ("Unregistered " ++ e ++ " from " ++ n) ∧
      lookupActivity (unregister_from_activity r n e).registry n =
        some { a with participants := a.participants.erase e }) ∧
    (e ∉ a.participants →
      (unregister_from_activity r n e).result =
        ApiResult.httpError 400 "Student is not signed up for this activity" ∧
      (unregister_from_activity r n e).registry = r) := by
  constructor
  · intro he
    simp only [unregister_from_activity, h, if_pos he]
    exact ⟨trivial, lookupActivity_updateActivity_self r n a _ h⟩
  · intro he
    simp only [unregister_from_activity, h, if_neg he]
    exact ⟨trivial, trivial⟩

/-- Witness for C5 on the seed registry: removing an enrolled member of
Chess Club succeeds, removing the spec's stranger fails with 400. -/
theorem C5_unregister_behaviour_witness :
    (unregister_from_activity activities "Chess Club" "michael@mergington.edu").result =
      ApiResult.ok ("Unregistered " ++ "michael@mergington.edu" ++ " from " ++ "Chess Club") ∧
    (unregister_from_activity activities "Chess Club" "stranger@mergington.edu").result =
      ApiResult.httpError 400 "Student is not signed up for this activity" ∧
    (unregister_from_activity activities "Chess Club" "stranger@mergington.edu").registry =
      activities :=
  ⟨((C5_unregister_behaviour activities "Chess Club" "michael@mergington.edu" chess_club
      (by decide)).1 (by decide)).1,
   ((C5_unregister_behaviour activities "Chess Club" "stranger@mergington.edu" chess_club
      (by decide)).2 (by decide)).1,
   ((C5_unregister_behaviour activities "Chess Club" "stranger@mergington.edu" chess_club
      (by decide)).2 (by decide)).2⟩

/-- Claim C6: when the email is not yet on an existing activity's
roster, signup succeeds, and the following unregister of the same email
puts the activity's record — its participants list in particular — back
to exactly its prior value, the order of the remaining members intact. -/
theorem C6_signup_unregister_round_trip (r : Registry) (n e : String) (a : Activity)
    (h : lookupActivity r n = some a) (he : e ∉ a.participants) :
    (signup_for_activity r n e).result = ApiResult.ok ("Signed up " ++ e ++ " for " ++ n) ∧
    lookupActivity
      (unregister_from_activity (signup_for_activity r n e).registry n e).registry n =
      some a := by
  have hs : (signup_for_activity r n e).registry =
      updateActivity r n { a with participants := a.participants ++ [e] } := by
    simp only [signup_for_activity, h, if_neg he]
  have hres : (signup_for_activity r n e).result =
      ApiResult.ok ("Signed up " ++ e ++ " for " ++ n) := by
    simp only [signup_for_activity, h, if_neg he]
  refine ⟨hres, ?_⟩
  have h1 : lookupActivity (signup_for_activity r n e).registry n =
      some { a with participants := a.participants ++ [e] } := by
    rw [hs]
    exact lookupActivity_updateActivity_self r n a _ h
  have hmem : e ∈ ({ a with participants := a.participants ++ [e] } : Activity).participants := by
    simp
  have hu : (unregister_from_activity (signup_for_activity r n e).registry n e).registry =
      updateActivity (signup_for_activity r n e).registry n
        { a with participants := (a.participants ++ [e]).erase e } := by
    simp only [unregister_from_activity, h1, if_pos hmem]
  rw [hu, erase_append_self a.participants e he]
  exact lookupActivity_updateActivity_self _ n _ a h1

/-- Witness for C6 on the seed registry with a fresh email for Chess
Club. -/
theorem C6_signup_unregister_round_trip_witness :
    (signup_for_activity activities "Chess Club" "new@mergington.edu").result =
      ApiResult.ok ("Signed up " ++ "new@mergington.edu" ++ " for " ++ "Chess Club") ∧
    lookupActivity
      (unregister_from_activity
        (signup_for_activity activities "Chess Club" "new@mergington.edu").registry
        "Chess Club" "new@mergington.edu").registry "Chess Club" =
      some chess_club :=
  C6_signup_unregister_round_trip activities "Chess Club" "new@mergington.edu" chess_club
    (by decide) (by decide)

/-- Claim C10: membership tests in both handlers are exact string
comparisons. If the roster holds "a@x.edu" and not "A@x.edu", then
unregister of "A@x.edu" fails with the 400 not-signed-up error and
changes nothing, while signup of "A@x.edu" succeeds and appends it as a
new participant alongside the lower-case entry. -/
theorem C10_case_sensitive_membership (r : Registry) (n : String) (a : Activity)
    (h : lookupActivity r n = some a)
    (hlo : "a@x.edu" ∈ a.participants) (hup : "A@x.edu" ∉ a.participants) :
    (unregister_from_activity r n "A@x.edu").result =
      ApiResult.httpError 400 "Student is not signed up for this activity" ∧
    (unregister_from_activity r n "A@x.edu").registry = r ∧
    (signup_for_activity r n "A@x.edu").result =
      ApiResult.ok ("Signed up " ++ "A@x.edu" ++ " for " ++ n) ∧
    lookupActivity (signup_for_activity r n "A@x.edu").registry n =
      some { a with participants := a.participants ++ ["A@x.edu"] } ∧
    "a@x.edu" ∈ a.participants ++ ["A@x.edu"] ∧
    "A@x.edu" ∈ a.participants ++ ["A@x.edu"] := by
  have hu : (unregister_from_activity r n "A@x.edu").result =
        ApiResult.httpError 400 "Student is not signed up for this activity" ∧
      (unregister_from_activity r n "A@x.edu").registry = r := by
    simp only [unregister_from_activity, h, if_neg hup]
    exact ⟨trivial, trivial⟩
  have hsr : (signup_for_activity r n "A@x.edu").result =
      ApiResult.ok ("Signed up " ++ "A@x.edu" ++ " for " ++ n) := by
    simp only [signup_for_activity, h, if_neg hup]
  have hsreg : (signup_for_activity r n "A@x.edu").registry =
      updateActivity r n { a with participants := a.participants ++ ["A@x.edu"] } := by
    simp only [signup_for_activity, h, if_neg hup]
  refine ⟨hu.1, hu.2, hsr, ?_, List.mem_append_left _ hlo, by simp⟩
  rw [hsreg]
  exact lookupActivity_updateActivity_self r n a _ h

/-- Witness for C10 on a registry whose Chess Club roster holds only
"a@x.edu". -/
theorem C10_case_sensitive_membership_witness :
    (unregister_from_activity c10_registry "Chess Club" "A@x.edu").result =
      ApiResult.httpError 400 "Student is not signed up for this activity" ∧
    (unregister_from_activity c10_registry "Chess Club" "A@x.edu").registry = c10_registry ∧
    (signup_for_activity c10_registry "Chess Club" "A@x.edu").result =
      ApiResult.ok ("Signed up " ++ "A@x.edu" ++ " for " ++ "Chess Club") ∧
    lookupActivity (signup_for_activity c10_registry "Chess Club" "A@x.edu").registry
      "Chess Club" =
      some { c10_activity with participants := c10_activity.participants ++ ["A@x.edu"] } ∧
    "a@x.edu" ∈ c10_activity.participants ++ ["A@x.edu"] ∧
    "A@x.edu" ∈ c10_activity.participants ++ ["A@x.edu"] :=
  C10_case_sensitive_membership c10_registry "Chess Club" c10_activity
    (by decide) (by decide) (by decide)

/-- Claim C1 fails on the code: committing the requests `c1_ops` (eight
signups filling Math Club to its capacity of 10, then one more) leaves
Math Club with 11 participants against `max_participants = 10` — the
handler appends without ever consulting `max_participants`. -/
theorem C1_capacity_overflow_evidence :
    (lookupActivity (runOps activities c1_ops) "Math Club").map
      (fun a => (a.participants.length, a.max_participants)) = some (11, 10) ∧
    (lookupActivity (runOps activities c1_ops) "Math Club").any
      (fun a => a.max_participants < a.participants.length) = true := by
  exact ⟨by decide, by decide⟩

/-- Claim C2 fails on the code: with Math Club exactly full (10/10),
one more signup of a fresh email is committed with a success message
and grows the roster to 11; no CapacityExceeded outcome exists anywhere
in the handler, so the capacity bound is never checked before the
insertion. -/
theorem C2_no_capacity_check_evidence :
    (lookupActivity math_full_registry "Math Club").map
      (fun a => (a.participants.length, a.max_participants)) = some (10, 10) ∧
    (signup_for_activity math_full_registry "Math Club" "overflow@mergington.edu").result =
      ApiResult.ok "Signed up overflow@mergington.edu for Math Club" ∧
    (lookupActivity
        (signup_for_activity math_full_registry "Math Club" "overflow@mergington.edu").registry
        "Math Club").map
      (fun a => (a.participants.length, a.max_participants)) = some (11, 10) := by
  exact ⟨by decide, by decide, by decide⟩

/-- Claim C9 fails on the code already at the sequential interleaving
(itself one of the permitted interleavings): eleven signup requests
with distinct emails against Chess Club's ten free slots all succeed —
none reports a full roster — and the final roster holds 13 members in a
club capped at 12. -/
theorem C9_sequential_overrun_evidence :
    (runSignups activities chess_signup_batch).2.length = 11 ∧
    (runSignups activities chess_signup_batch).2.all ApiResult.isOk = true ∧
    (lookupActivity (runSignups activities chess_signup_batch).1 "Chess Club").map
      (fun a => (a.participants.length, a.max_participants)) = some (13, 12) := by
  exact ⟨by decide, by decide, by decide⟩

/-- Claim C7: on the seed registry Chess Club stands at 2/12; signing
up "new@mergington.edu" returns the success message echoing the email
and the activity name, the roster afterwards has exactly the two seed
members plus the new one (length 3), and the single scheduled
notification goes to "new@mergington.edu" with a subject containing
"Chess Club". -/
theorem C7_chess_signup_scenario :
    (lookupActivity activities "Chess Club").map
      (fun a => (a.participants.length, a.max_participants)) = some (2, 12) ∧
    c7_resp.result = ApiResult.ok "Signed up new@mergington.edu for Chess Club" ∧
    containsSub "new@mergington.edu" "Signed up new@mergington.edu for Chess Club" ∧
    containsSub "Chess Club" "Signed up new@mergington.edu for Chess Club" ∧
    (lookupActivity c7_resp.registry "Chess Club").map Activity.participants =
      some ["michael@mergington.edu", "daniel@mergington.edu", "new@mergington.edu"] ∧
    c7_resp.emails.map (fun m => (m.to_email, m.subject)) =
      [("new@mergington.edu", "Successfully Registered for Chess Club")] ∧
    containsSub "Chess Club" "Successfully Registered for Chess Club" := by
  refine ⟨by decide, by decide, ⟨"Signed up ", " for Chess Club", by decide⟩,
    ⟨"Signed up new@mergington.edu for ", "", by decide⟩, by decide, by decide,
    ⟨"Successfully Registered for ", "", by decide⟩⟩

/-- Claim C8 fails on the code as stated: in the environment `c8_env`
the host, the port (explicitly 0) and the sender address are all
present, yet `is_configured` is false — the code tests Python
truthiness, not presence, so a present-but-zero port (or a
present-but-empty host) defeats the "iff all present" reading. -/
theorem C8_configured_counterexample :
    c8_env "SMTP_HOST" = some "smtp.example.com" ∧
    c8_env "SMTP_PORT" = some "0" ∧
    c8_env "FROM_EMAIL" = some "activities@mergington.edu" ∧
    (EmailSettings.ofEnv c8_env).host = some "smtp.example.com" ∧
    (EmailSettings.ofEnv c8_env).port = 0 ∧
    (EmailSettings.ofEnv c8_env).from_email = some "activities@mergington.edu" ∧
    (EmailSettings.ofEnv c8_env).is_configured = false := by
  exact ⟨rfl, rfl, rfl, by decide, by decide, by decide, by decide⟩

/-- `is_configured` spelt out: truthy host, non-zero port, truthy
sender address. -/
theorem is_configured_iff (s : EmailSettings) :
    s.is_configured = true ↔
      (∃ h, s.host = some h ∧ h ≠ "") ∧ s.port ≠ 0 ∧
      (∃ f, s.from_email = some f ∧ f ≠ "") := by
  obtain ⟨host, port, username, password, from_email, from_name, use_tls⟩ := s
  cases host <;> cases from_email <;>
    simp [EmailSettings.is_configured, py_truthy_str, and_assoc]

/-- Claim C8, amended: the notifier is configured iff the host and the
sender address are set to non-empty strings and the port value is
non-zero; whenever it is not configured, every send_email call skips
delivery entirely, producing only the logged skip message; and the port
defaults to 587 when SMTP_PORT is unspecified. -/
theorem C8_configured_amended (env : Env) (subject body to_email : String) :
    ((EmailSettings.ofEnv env).is_configured = true ↔
      (∃ h, (EmailSettings.ofEnv env).host = some h ∧ h ≠ "") ∧
      (EmailSettings.ofEnv env).port ≠ 0 ∧
      (∃ f, (EmailSettings.ofEnv env).from_email = some f ∧ f ≠ "")) ∧
    ((EmailSettings.ofEnv env).is_configured = false →
      send_email (EmailSettings.ofEnv env) subject body to_email =
        EmailOutcome.skipped "Email settings not configured; skipping email send.") ∧
    (env "SMTP_PORT" = none → (EmailSettings.ofEnv env).port = 587) := by
  refine ⟨is_configured_iff _, ?_, ?_⟩
  · intro hnc
    simp [send_email, hnc]
  · intro hp
    simp [EmailSettings.ofEnv, get_int_env, hp]

/-- Witness for the amended C8 in the empty environment: not
configured, so send_email only logs the skip, and the port is 587. -/
theorem C8_configured_amended_witness :
    send_email (EmailSettings.ofEnv empty_env) "subject" "body" "student@mergington.edu" =
      EmailOutcome.skipped "Email settings not configured; skipping email send." ∧
    (EmailSettings.ofEnv empty_env).port = 587 :=
  ⟨(C8_configured_amended empty_env "subject" "body" "student@mergington.edu").2.1 (by decide),
   (C8_configured_amended empty_env "subject" "body" "student@mergington.edu").2.2 rfl⟩
